import Mathlib

/-!
Verification of the fpds-server repository: a FastAPI service that turns a
natural-language question about FPDS award data into a MongoDB filter via an
LLM, executes it, and formats the results.  The definitions below are shallow
embeddings of the Python sources under `src/src`; external effects (the OpenAI
chat call, `json.loads`, the MongoDB driver) are abstracted as `Except`-valued
inputs, exactly at the points where the Python code wraps them in
`try`/`except`.  Strings are modelled as `List Char` where character-level
scanning matters (Python `re` substitutions, `str.lower`, substring tests);
the embedding is faithful for ASCII input, which is the alphabet of every
literal in the sources.
-/

namespace FPDS

/-! ### String machinery

`startsWithL needle hay` and `hasSub hay needle` embed the Python prefix test
and the `needle in hay` substring operator on strings. -/

def startsWithL : List Char → List Char → Bool
  | [], _ => true
  | _ :: _, [] => false
  | a :: as, b :: bs => a == b && startsWithL as bs

def hasSub (hay needle : List Char) : Bool :=
  match hay with
  | [] => startsWithL needle []
  | _ :: t => startsWithL needle hay || hasSub t needle

/-- Embeds Python `needle in hay` on `str`. -/
def strHasSub (hay needle : String) : Bool :=
  hasSub hay.toList needle.toList

/-- Embeds Python `str.lower()` (ASCII). -/
def lowerL (s : List Char) : List Char := s.map Char.toLower

/-- Embeds Python `str.lower()` on `String`. -/
def strLower (s : String) : String := ⟨lowerL s.toList⟩

/-- Consume an expected literal; return the remainder on success. -/
def dropLit : List Char → List Char → Option (List Char)
  | [], s => some s
  | _ :: _, [] => none
  | a :: as, b :: bs => if a == b then dropLit as bs else none

/-- Maximal run of characters satisfying `p`, with the remainder. -/
def takeRun (p : Char → Bool) : List Char → List Char × List Char
  | [] => ([], [])
  | c :: cs =>
    if p c then
      let r := takeRun p cs
      (c :: r.1, r.2)
    else ([], c :: cs)

/-- Embeds the Python `\s` class for ASCII text (`re` on `str`, restricted to ASCII). -/
def pySpace (c : Char) : Bool :=
  c == ' ' || c == '\t' || c == '\n' || c == '\r' || c == '\x0b' || c == '\x0c'

/-- Embeds the Python `[a-zA-Z]` class. -/
def pyAlpha (c : Char) : Bool :=
  ('a' ≤ c && c ≤ 'z') || ('A' ≤ c && c ≤ 'Z')

/-- A deterministic leftmost-match substitution step: a matcher returns the
replacement text and the remainder after the matched span.  Every matcher used
below consumes at least one character on success. -/
def Matcher : Type := List Char → Option (List Char × List Char)

/-- Embeds `re.sub` for a deterministic matcher, fuelled by the input length: scan
left to right, at each position either rewrite a match and continue after it,
or keep the character.  Matches consume at least one character, so fuel equal
to the input length always suffices. -/
def substAux (m : Matcher) : Nat → List Char → List Char
  | 0, s => s
  | _ + 1, [] => []
  | fuel + 1, c :: cs =>
    match m (c :: cs) with
    | some (rep, rest) => rep ++ substAux m fuel rest
    | none => c :: substAux m fuel cs

def substM (m : Matcher) (s : List Char) : List Char :=
  substAux m s.length s


/-! ### Data model

`JVal` models the JSON-like values flowing through the service (LLM reply
objects, MongoDB documents); `JObj` is a Python dict as an association list,
looked up with `List.lookup`.  `AttrVal` models the values of the static field
catalogue (strings and lists of strings are the only value shapes there). -/

inductive JVal where
  | str : String → JVal
  | num : Int → JVal
  | obj : List (String × JVal) → JVal
  | arr : List JVal → JVal

abbrev JObj := List (String × JVal)

abbrev Doc := List (String × JVal)

inductive AttrVal where
  | str : String → AttrVal
  | strList : List String → AttrVal
deriving DecidableEq

/-- The static field catalogue: the dictionary literal returned by
`FPDSFieldMapper._create_field_mappings` in `services/fpds_field_mappings.py`,
embedded verbatim as an association list so that the attribute keys of each
entry remain observable. -/
def fieldMappings : List (String × List (String × AttrVal)) := [
  ("award_type_display", [
    ("description", AttrVal.str "Type of award (e.g., Delivery/Task Order, Purchase Order)"),
    ("category", AttrVal.str "transaction"),
    ("search_terms", AttrVal.strList ["award type", "contract type", "delivery order", "task order", "purchase order", "contract award"]),
    ("data_type", AttrVal.str "string")]),
  ("award_status_display", [
    ("description", AttrVal.str "Current status of the award (e.g., Final, Draft)"),
    ("category", AttrVal.str "transaction"),
    ("search_terms", AttrVal.strList ["award status", "contract status", "final", "draft", "active"]),
    ("data_type", AttrVal.str "string")]),
  ("closed_status_display", [
    ("description", AttrVal.str "Whether the contract is closed"),
    ("category", AttrVal.str "transaction"),
    ("search_terms", AttrVal.strList ["closed", "closed status", "contract closed", "terminated"]),
    ("data_type", AttrVal.str "string")]),
  ("prepared_date", [
    ("description", AttrVal.str "Date and time when the award record was prepared"),
    ("category", AttrVal.str "transaction"),
    ("search_terms", AttrVal.strList ["prepared date", "date prepared", "award prepared", "prepared on"]),
    ("data_type", AttrVal.str "datetime")]),
  ("prepared_user", [
    ("description", AttrVal.str "User who prepared the award record"),
    ("category", AttrVal.str "transaction"),
    ("search_terms", AttrVal.strList ["prepared user", "prepared by", "award prepared by", "record creator"]),
    ("data_type", AttrVal.str "string")]),
  ("last_modified_date", [
    ("description", AttrVal.str "Date and time when the award record was last modified"),
    ("category", AttrVal.str "transaction"),
    ("search_terms", AttrVal.strList ["last modified date", "modified date", "updated date", "last updated"]),
    ("data_type", AttrVal.str "datetime")]),
  ("last_modified_user", [
    ("description", AttrVal.str "User who last modified the award record"),
    ("category", AttrVal.str "transaction"),
    ("search_terms", AttrVal.strList ["last modified user", "modified by", "updated by", "last updated by"]),
    ("data_type", AttrVal.str "string")]),
  ("approved_date", [
    ("description", AttrVal.str "Date and time when the award was approved"),
    ("category", AttrVal.str "transaction"),
    ("search_terms", AttrVal.strList ["approved date", "date approved", "award approved"]),
    ("data_type", AttrVal.str "datetime")]),
  ("approved_by_display", [
    ("description", AttrVal.str "User who approved the award"),
    ("category", AttrVal.str "transaction"),
    ("search_terms", AttrVal.strList ["approved by", "approver", "award approver"]),
    ("data_type", AttrVal.str "string")]),
  ("award_id_agency_id", [
    ("description", AttrVal.str "Agency ID for the award"),
    ("category", AttrVal.str "award_id"),
    ("search_terms", AttrVal.strList ["agency id", "award agency", "contracting agency"]),
    ("data_type", AttrVal.str "string")]),
  ("award_id_procurement_identifier", [
    ("description", AttrVal.str "Procurement identifier (PIID)"),
    ("category", AttrVal.str "award_id"),
    ("search_terms", AttrVal.strList ["procurement id", "piid", "contract number", "award number"]),
    ("data_type", AttrVal.str "string")]),
  ("award_id_modification_number", [
    ("description", AttrVal.str "Modification number for the award"),
    ("category", AttrVal.str "award_id"),
    ("search_terms", AttrVal.strList ["modification", "mod number", "contract modification"]),
    ("data_type", AttrVal.str "string")]),
  ("award_id_transaction_number", [
    ("description", AttrVal.str "Transaction number"),
    ("category", AttrVal.str "award_id"),
    ("search_terms", AttrVal.strList ["transaction number", "transaction id"]),
    ("data_type", AttrVal.str "string")]),
  ("solicitation_id_solicitation_id", [
    ("description", AttrVal.str "Solicitation ID for the award"),
    ("category", AttrVal.str "award_id"),
    ("search_terms", AttrVal.strList ["solicitation id", "solicitation", "bid id", "request for proposal"]),
    ("data_type", AttrVal.str "string")]),
  ("referenced_idv_id_indefinite_delivery_vehicle_agency_id", [
    ("description", AttrVal.str "Agency ID for the referenced IDV"),
    ("category", AttrVal.str "idv"),
    ("search_terms", AttrVal.strList ["idv agency", "indefinite delivery vehicle agency"]),
    ("data_type", AttrVal.str "string")]),
  ("referenced_idv_id_indefinite_delivery_vehicle_procurement_id", [
    ("description", AttrVal.str "Procurement ID for the referenced IDV"),
    ("category", AttrVal.str "idv"),
    ("search_terms", AttrVal.strList ["idv procurement", "indefinite delivery vehicle procurement"]),
    ("data_type", AttrVal.str "string")]),
  ("referenced_idv_id_idv_mod_number", [
    ("description", AttrVal.str "Modification number for the IDV"),
    ("category", AttrVal.str "idv"),
    ("search_terms", AttrVal.strList ["idv modification", "idv mod"]),
    ("data_type", AttrVal.str "string")]),
  ("date_signed_date_signed", [
    ("description", AttrVal.str "Date when the contract was signed"),
    ("category", AttrVal.str "dates"),
    ("search_terms", AttrVal.strList ["date signed", "signature date", "contract date", "award date"]),
    ("data_type", AttrVal.str "date")]),
  ("date_signed_period_of_performance_start_date", [
    ("description", AttrVal.str "Start date of the performance period"),
    ("category", AttrVal.str "dates"),
    ("search_terms", AttrVal.strList ["performance start", "start date", "period start", "contract start"]),
    ("data_type", AttrVal.str "date")]),
  ("date_signed_award_completion_date", [
    ("description", AttrVal.str "Award completion date"),
    ("category", AttrVal.str "dates"),
    ("search_terms", AttrVal.strList ["completion date", "award completion", "contract completion", "end date"]),
    ("data_type", AttrVal.str "date")]),
  ("date_signed_estimated_ultimate_completion_date", [
    ("description", AttrVal.str "Estimated ultimate completion date"),
    ("category", AttrVal.str "dates"),
    ("search_terms", AttrVal.strList ["estimated completion", "ultimate completion", "expected end"]),
    ("data_type", AttrVal.str "date")]),
  ("action_obligation_current_obligation_amount", [
    ("description", AttrVal.str "Current obligation amount"),
    ("category", AttrVal.str "financial"),
    ("search_terms", AttrVal.strList ["current obligation", "obligation amount", "current amount", "funds obligated"]),
    ("data_type", AttrVal.str "currency")]),
  ("action_obligation_total_obligation_amount", [
    ("description", AttrVal.str "Total obligation amount"),
    ("category", AttrVal.str "financial"),
    ("search_terms", AttrVal.strList ["total obligation", "total amount", "total funds", "total obligated"]),
    ("data_type", AttrVal.str "currency")]),
  ("base_and_exercised_options_value_current_base_and_excercised_options_value", [
    ("description", AttrVal.str "Current base and exercised options value"),
    ("category", AttrVal.str "financial"),
    ("search_terms", AttrVal.strList ["base value", "exercised options", "current value"]),
    ("data_type", AttrVal.str "currency")]),
  ("base_and_exercised_options_value_total_base_and_excercised_options_value", [
    ("description", AttrVal.str "Total base and exercised options value"),
    ("category", AttrVal.str "financial"),
    ("search_terms", AttrVal.strList ["total base", "total options", "total contract value"]),
    ("data_type", AttrVal.str "currency")]),
  ("contracting_office_agency_id_contracting_office_agency_id", [
    ("description", AttrVal.str "Contracting office agency ID"),
    ("category", AttrVal.str "contracting_office"),
    ("search_terms", AttrVal.strList ["contracting office agency", "contracting agency id"]),
    ("data_type", AttrVal.str "string")]),
  ("contracting_office_agency_id_contracting_office_agency_name", [
    ("description", AttrVal.str "Contracting office agency name"),
    ("category", AttrVal.str "contracting_office"),
    ("search_terms", AttrVal.strList ["contracting office", "contracting agency", "awarding agency"]),
    ("data_type", AttrVal.str "string")]),
  ("contracting_office_id_contracting_office_id", [
    ("description", AttrVal.str "Contracting office ID"),
    ("category", AttrVal.str "contracting_office"),
    ("search_terms", AttrVal.strList ["contracting office id", "office id"]),
    ("data_type", AttrVal.str "string")]),
  ("contracting_office_id_contracting_office_name", [
    ("description", AttrVal.str "Contracting office name"),
    ("category", AttrVal.str "contracting_office"),
    ("search_terms", AttrVal.strList ["contracting office name", "office name"]),
    ("data_type", AttrVal.str "string")]),
  ("funding_agency_id_funding_or_requesting_agency_id", [
    ("description", AttrVal.str "Funding agency ID"),
    ("category", AttrVal.str "funding"),
    ("search_terms", AttrVal.strList ["funding agency", "funding agency id", "requesting agency"]),
    ("data_type", AttrVal.str "string")]),
  ("funding_agency_id_funding_or_requesting_agency_name", [
    ("description", AttrVal.str "Funding agency name"),
    ("category", AttrVal.str "funding"),
    ("search_terms", AttrVal.strList ["funding agency name", "requesting agency name"]),
    ("data_type", AttrVal.str "string")]),
  ("funding_office_id_funding_or_requesting_office_id", [
    ("description", AttrVal.str "Funding office ID"),
    ("category", AttrVal.str "funding"),
    ("search_terms", AttrVal.strList ["funding office", "funding office id"]),
    ("data_type", AttrVal.str "string")]),
  ("funding_office_id_funding_or_requesting_office_name", [
    ("description", AttrVal.str "Funding office name"),
    ("category", AttrVal.str "funding"),
    ("search_terms", AttrVal.strList ["funding office name"]),
    ("data_type", AttrVal.str "string")]),
  ("unique_entity_id_unique_entity_identifier", [
    ("description", AttrVal.str "Unique entity identifier (UEI)"),
    ("category", AttrVal.str "entity"),
    ("search_terms", AttrVal.strList ["unique entity id", "uei", "entity identifier", "vendor id"]),
    ("data_type", AttrVal.str "string")]),
  ("unique_entity_id_legal_business_name", [
    ("description", AttrVal.str "Legal business name of the contractor"),
    ("category", AttrVal.str "entity"),
    ("search_terms", AttrVal.strList ["business name", "contractor name", "vendor name", "company name"]),
    ("data_type", AttrVal.str "string")]),
  ("unique_entity_id_cage_code", [
    ("description", AttrVal.str "CAGE code of the contractor"),
    ("category", AttrVal.str "entity"),
    ("search_terms", AttrVal.strList ["cage code", "cage"]),
    ("data_type", AttrVal.str "string")]),
  ("unique_entity_id_entity_city", [
    ("description", AttrVal.str "City of the contractor"),
    ("category", AttrVal.str "entity"),
    ("search_terms", AttrVal.strList ["contractor city", "vendor city", "business city"]),
    ("data_type", AttrVal.str "string")]),
  ("unique_entity_id_entity_state", [
    ("description", AttrVal.str "State of the contractor"),
    ("category", AttrVal.str "entity"),
    ("search_terms", AttrVal.strList ["contractor state", "vendor state", "business state"]),
    ("data_type", AttrVal.str "string")]),
  ("unique_entity_id_entity_zip", [
    ("description", AttrVal.str "ZIP code of the contractor"),
    ("category", AttrVal.str "entity"),
    ("search_terms", AttrVal.strList ["contractor zip", "vendor zip", "business zip"]),
    ("data_type", AttrVal.str "string")]),
  ("unique_entity_id_entity_country", [
    ("description", AttrVal.str "Country of the contractor"),
    ("category", AttrVal.str "entity"),
    ("search_terms", AttrVal.strList ["contractor country", "vendor country", "business country"]),
    ("data_type", AttrVal.str "string")]),
  ("type_of_contract", [
    ("description", AttrVal.str "Type of contract (e.g., Firm Fixed Price)"),
    ("category", AttrVal.str "contract"),
    ("search_terms", AttrVal.strList ["contract type", "type of contract", "fixed price", "cost plus"]),
    ("data_type", AttrVal.str "string")]),
  ("nature_of_services", [
    ("description", AttrVal.str "Nature of services provided"),
    ("category", AttrVal.str "contract"),
    ("search_terms", AttrVal.strList ["nature of services", "service type", "work type"]),
    ("data_type", AttrVal.str "string")]),
  ("multiyear_contract", [
    ("description", AttrVal.str "Whether this is a multiyear contract"),
    ("category", AttrVal.str "contract"),
    ("search_terms", AttrVal.strList ["multiyear", "multi year", "multi-year"]),
    ("data_type", AttrVal.str "string")]),
  ("principal_place_of_performance_code_principal_place_of_performance_state_code", [
    ("description", AttrVal.str "State code for principal place of performance"),
    ("category", AttrVal.str "performance_location"),
    ("search_terms", AttrVal.strList ["performance state", "work state", "location state"]),
    ("data_type", AttrVal.str "string")]),
  ("principal_place_of_performance_code_principal_place_of_performance_country_code", [
    ("description", AttrVal.str "Country code for principal place of performance"),
    ("category", AttrVal.str "performance_location"),
    ("search_terms", AttrVal.strList ["performance country", "work country", "location country"]),
    ("data_type", AttrVal.str "string")]),
  ("principal_place_of_performance_county_name_principal_place_of_performance_county_name", [
    ("description", AttrVal.str "County name for principal place of performance"),
    ("category", AttrVal.str "performance_location"),
    ("search_terms", AttrVal.strList ["performance county", "work county", "location county"]),
    ("data_type", AttrVal.str "string")]),
  ("principal_place_of_performance_city_name_principal_place_of_performance_city_name", [
    ("description", AttrVal.str "City name for principal place of performance"),
    ("category", AttrVal.str "performance_location"),
    ("search_terms", AttrVal.strList ["performance city", "work city", "location city"]),
    ("data_type", AttrVal.str "string")]),
  ("productservice_code_product_or_service_code", [
    ("description", AttrVal.str "Product or service code"),
    ("category", AttrVal.str "product_service"),
    ("search_terms", AttrVal.strList ["product code", "service code", "psc", "product service code"]),
    ("data_type", AttrVal.str "string")]),
  ("productservice_code_product_or_service_code_description", [
    ("description", AttrVal.str "Description of the product or service code"),
    ("category", AttrVal.str "product_service"),
    ("search_terms", AttrVal.strList ["product description", "service description", "work description"]),
    ("data_type", AttrVal.str "string")]),
  ("principal_naics_code_principal_north_american_industry_classification_system_code", [
    ("description", AttrVal.str "Principal NAICS code"),
    ("category", AttrVal.str "product_service"),
    ("search_terms", AttrVal.strList ["naics code", "naics", "industry code"]),
    ("data_type", AttrVal.str "string")]),
  ("principal_naics_code_north_american_industry_classification_system_description", [
    ("description", AttrVal.str "NAICS code description"),
    ("category", AttrVal.str "product_service"),
    ("search_terms", AttrVal.strList ["naics description", "industry description"]),
    ("data_type", AttrVal.str "string")]),
  ("description_of_requirement", [
    ("description", AttrVal.str "Detailed description of the requirement (e.g., period of performance extension TI 003)"),
    ("category", AttrVal.str "product_service"),
    ("search_terms", AttrVal.strList ["requirement description", "description of requirement", "period of performance", "performance extension"]),
    ("data_type", AttrVal.str "string")]),
  ("extent_competed", [
    ("description", AttrVal.str "Extent of competition"),
    ("category", AttrVal.str "competition"),
    ("search_terms", AttrVal.strList ["extent competed", "competition", "competitive", "full and open"]),
    ("data_type", AttrVal.str "string")]),
  ("type_of_set_aside", [
    ("description", AttrVal.str "Type of set aside"),
    ("category", AttrVal.str "competition"),
    ("search_terms", AttrVal.strList ["set aside", "small business", "8a", "women owned"]),
    ("data_type", AttrVal.str "string")]),
  ("number_of_offers_received_number_of_offers_received", [
    ("description", AttrVal.str "Number of offers received"),
    ("category", AttrVal.str "competition"),
    ("search_terms", AttrVal.strList ["number of offers", "offers received", "bids received"]),
    ("data_type", AttrVal.str "number")]),
  ("contracting_officers_business_size_selection", [
    ("description", AttrVal.str "Business size selection by contracting officer"),
    ("category", AttrVal.str "business_size"),
    ("search_terms", AttrVal.strList ["business size", "small business", "large business"]),
    ("data_type", AttrVal.str "string")]),
  ("date_signed_current_obligation_amount", [
    ("description", AttrVal.str "Current obligation amount as of date signed"),
    ("category", AttrVal.str "financial"),
    ("search_terms", AttrVal.strList ["current obligation", "current amount", "obligated funds", "current funding"]),
    ("data_type", AttrVal.str "currency")]),
  ("date_signed_total_obligation_amount", [
    ("description", AttrVal.str "Total obligation amount as of date signed"),
    ("category", AttrVal.str "financial"),
    ("search_terms", AttrVal.strList ["total obligation", "total amount", "total funding", "total obligated"]),
    ("data_type", AttrVal.str "currency")]),
  ("date_signed_current_base_and_excercised_options_value", [
    ("description", AttrVal.str "Current base and exercised options value"),
    ("category", AttrVal.str "financial"),
    ("search_terms", AttrVal.strList ["current value", "base value", "exercised options", "current contract value"]),
    ("data_type", AttrVal.str "currency")]),
  ("date_signed_total_base_and_excercised_options_value", [
    ("description", AttrVal.str "Total base and exercised options value"),
    ("category", AttrVal.str "financial"),
    ("search_terms", AttrVal.strList ["total value", "total contract value", "total options", "full contract value"]),
    ("data_type", AttrVal.str "currency")]),
  ("date_signed_base_and_all_options_value", [
    ("description", AttrVal.str "Base and all options value"),
    ("category", AttrVal.str "financial"),
    ("search_terms", AttrVal.strList ["all options", "potential value", "maximum value", "ceiling value"]),
    ("data_type", AttrVal.str "currency")]),
  ("date_signed_total_base_and_all_options_value", [
    ("description", AttrVal.str "Total base and all options value"),
    ("category", AttrVal.str "financial"),
    ("search_terms", AttrVal.strList ["total potential", "maximum contract", "ceiling amount", "total ceiling"]),
    ("data_type", AttrVal.str "currency")]),
  ("date_signed_fee_paid_for_use_of_indefinite_delivery_vehicle", [
    ("description", AttrVal.str "Fee paid for use of indefinite delivery vehicle"),
    ("category", AttrVal.str "financial"),
    ("search_terms", AttrVal.strList ["idv fee", "delivery vehicle fee", "contract fee", "vehicle fee"]),
    ("data_type", AttrVal.str "currency")]),
  ("period_of_performance_start_date_period_of_performance_start_date", [
    ("description", AttrVal.str "Period of performance start date"),
    ("category", AttrVal.str "dates"),
    ("search_terms", AttrVal.strList ["performance start", "work start", "contract start", "period start"]),
    ("data_type", AttrVal.str "date")]),
  ("completion_date_award_completion_date", [
    ("description", AttrVal.str "Award completion date"),
    ("category", AttrVal.str "dates"),
    ("search_terms", AttrVal.strList ["completion date", "award completion", "contract end", "work end"]),
    ("data_type", AttrVal.str "date")]),
  ("est_ultimate_completion_date_estimated_ultimate_completion_date", [
    ("description", AttrVal.str "Estimated ultimate completion date"),
    ("category", AttrVal.str "dates"),
    ("search_terms", AttrVal.strList ["estimated completion", "ultimate completion", "expected end", "projected end"]),
    ("data_type", AttrVal.str "date")]),
  ("unique_entity_id_entity_street", [
    ("description", AttrVal.str "Street address of the contractor"),
    ("category", AttrVal.str "entity"),
    ("search_terms", AttrVal.strList ["contractor address", "vendor address", "business address", "street address"]),
    ("data_type", AttrVal.str "string")]),
  ("unique_entity_id_vendorcountry", [
    ("description", AttrVal.str "Vendor country code"),
    ("category", AttrVal.str "entity"),
    ("search_terms", AttrVal.strList ["vendor country", "contractor country", "business country", "country code"]),
    ("data_type", AttrVal.str "string")]),
  ("unique_entity_id_entity_phone_number", [
    ("description", AttrVal.str "Phone number of the contractor"),
    ("category", AttrVal.str "entity"),
    ("search_terms", AttrVal.strList ["contractor phone", "vendor phone", "business phone", "phone number"]),
    ("data_type", AttrVal.str "string")]),
  ("unique_entity_id_entity_congressional_district", [
    ("description", AttrVal.str "Congressional district of the contractor"),
    ("category", AttrVal.str "entity"),
    ("search_terms", AttrVal.strList ["congressional district", "contractor district", "vendor district", "political district"]),
    ("data_type", AttrVal.str "string")]),
  ("reason_for_modification_reason_for_modification", [
    ("description", AttrVal.str "Reason for contract modification"),
    ("category", AttrVal.str "contract"),
    ("search_terms", AttrVal.strList ["modification reason", "change reason", "contract change", "mod reason"]),
    ("data_type", AttrVal.str "string")]),
  ("foreign_funding", [
    ("description", AttrVal.str "Whether contract uses foreign funding"),
    ("category", AttrVal.str "contract"),
    ("search_terms", AttrVal.strList ["foreign funding", "international funding", "foreign money", "overseas funding"]),
    ("data_type", AttrVal.str "string")]),
  ("national_interest_action", [
    ("description", AttrVal.str "National interest action designation"),
    ("category", AttrVal.str "contract"),
    ("search_terms", AttrVal.strList ["national interest", "national security", "critical action", "priority contract"]),
    ("data_type", AttrVal.str "string")]),
  ("cost_or_pricing_data", [
    ("description", AttrVal.str "Whether cost or pricing data was required"),
    ("category", AttrVal.str "contract"),
    ("search_terms", AttrVal.strList ["cost data", "pricing data", "cost analysis", "price analysis"]),
    ("data_type", AttrVal.str "string")]),
  ("purchase_card_used_as_payment_method", [
    ("description", AttrVal.str "Whether purchase card was used for payment"),
    ("category", AttrVal.str "contract"),
    ("search_terms", AttrVal.strList ["purchase card", "government card", "payment method", "card payment"]),
    ("data_type", AttrVal.str "string")]),
  ("undefinitized_action", [
    ("description", AttrVal.str "Whether this is an undefinitized action"),
    ("category", AttrVal.str "contract"),
    ("search_terms", AttrVal.strList ["undefinitized", "not definitized", "pending definition", "temporary contract"]),
    ("data_type", AttrVal.str "string")]),
  ("performance_based_service_acquisition", [
    ("description", AttrVal.str "Whether this is a performance-based service acquisition"),
    ("category", AttrVal.str "contract"),
    ("search_terms", AttrVal.strList ["performance based", "pbsa", "service acquisition", "performance contract"]),
    ("data_type", AttrVal.str "string")]),
  ("emergency_acquisition", [
    ("description", AttrVal.str "Whether this is an emergency acquisition"),
    ("category", AttrVal.str "contract"),
    ("search_terms", AttrVal.strList ["emergency", "urgent", "crisis", "emergency contract"]),
    ("data_type", AttrVal.str "string")]),
  ("contract_financing", [
    ("description", AttrVal.str "Type of contract financing used"),
    ("category", AttrVal.str "contract"),
    ("search_terms", AttrVal.strList ["contract financing", "payment terms", "financing", "payment schedule"]),
    ("data_type", AttrVal.str "string")]),
  ("cost_accounting_standards_clause", [
    ("description", AttrVal.str "Cost accounting standards clause"),
    ("category", AttrVal.str "contract"),
    ("search_terms", AttrVal.strList ["cost accounting", "cas", "accounting standards", "cost standards"]),
    ("data_type", AttrVal.str "string")]),
  ("consolidated_contract", [
    ("description", AttrVal.str "Whether this is a consolidated contract"),
    ("category", AttrVal.str "contract"),
    ("search_terms", AttrVal.strList ["consolidated", "combined contract", "merged contract", "unified contract"]),
    ("data_type", AttrVal.str "string")]),
  ("clingercohen_act", [
    ("description", AttrVal.str "Whether Clinger-Cohen Act applies"),
    ("category", AttrVal.str "contract"),
    ("search_terms", AttrVal.strList ["clinger cohen", "it management", "information technology", "it reform"]),
    ("data_type", AttrVal.str "string")]),
  ("labor_standards", [
    ("description", AttrVal.str "Whether labor standards apply"),
    ("category", AttrVal.str "contract"),
    ("search_terms", AttrVal.strList ["labor standards", "wage requirements", "worker protection", "employment standards"]),
    ("data_type", AttrVal.str "string")]),
  ("materials_supplies_articles_and_equip", [
    ("description", AttrVal.str "Whether contract involves materials, supplies, articles, and equipment"),
    ("category", AttrVal.str "contract"),
    ("search_terms", AttrVal.strList ["materials", "supplies", "equipment", "articles", "goods"]),
    ("data_type", AttrVal.str "string")]),
  ("construction_wage_rate_requirements", [
    ("description", AttrVal.str "Whether construction wage rate requirements apply"),
    ("category", AttrVal.str "contract"),
    ("search_terms", AttrVal.strList ["construction wage", "davis bacon", "prevailing wage", "construction labor"]),
    ("data_type", AttrVal.str "string")]),
  ("interagency_contracting_authority", [
    ("description", AttrVal.str "Interagency contracting authority used"),
    ("category", AttrVal.str "contract"),
    ("search_terms", AttrVal.strList ["interagency", "cross agency", "shared services", "cooperative agreement"]),
    ("data_type", AttrVal.str "string")]),
  ("congressional_district_place_of_performance_congressional_district_place_of_performance", [
    ("description", AttrVal.str "Congressional district for place of performance"),
    ("category", AttrVal.str "performance_location"),
    ("search_terms", AttrVal.strList ["performance district", "work district", "location district", "political district"]),
    ("data_type", AttrVal.str "string")]),
  ("place_of_performance_zip_code4_place_of_performance_zip_code5", [
    ("description", AttrVal.str "ZIP code for place of performance"),
    ("category", AttrVal.str "performance_location"),
    ("search_terms", AttrVal.strList ["performance zip", "work zip", "location zip", "zip code"]),
    ("data_type", AttrVal.str "string")]),
  ("place_of_performance_zip_code4_place_of_performance_zip_code4", [
    ("description", AttrVal.str "ZIP+4 code for place of performance"),
    ("category", AttrVal.str "performance_location"),
    ("search_terms", AttrVal.strList ["performance zip4", "work zip4", "location zip4", "zip+4"]),
    ("data_type", AttrVal.str "string")]),
  ("bundled_contract", [
    ("description", AttrVal.str "Whether this is a bundled contract"),
    ("category", AttrVal.str "product_service"),
    ("search_terms", AttrVal.strList ["bundled", "combined services", "package contract", "multiple services"]),
    ("data_type", AttrVal.str "string")]),
  ("dod_acquisition_program_dod_acquisition_program", [
    ("description", AttrVal.str "DOD acquisition program code"),
    ("category", AttrVal.str "product_service"),
    ("search_terms", AttrVal.strList ["dod program", "acquisition program", "defense program", "military program"]),
    ("data_type", AttrVal.str "string")]),
  ("dod_acquisition_program_programsystem_or_equipment_code_description", [
    ("description", AttrVal.str "DOD acquisition program description"),
    ("category", AttrVal.str "product_service"),
    ("search_terms", AttrVal.strList ["dod description", "program description", "defense description", "military description"]),
    ("data_type", AttrVal.str "string")]),
  ("country_of_product_or_service_origin_country_of_product_or_service_origin", [
    ("description", AttrVal.str "Country of origin for product or service"),
    ("category", AttrVal.str "product_service"),
    ("search_terms", AttrVal.strList ["origin country", "product origin", "service origin", "country of origin"]),
    ("data_type", AttrVal.str "string")]),
  ("country_of_product_or_service_origin_country_of_product_or_service_origin_for_display", [
    ("description", AttrVal.str "Display name for country of origin"),
    ("category", AttrVal.str "product_service"),
    ("search_terms", AttrVal.strList ["origin display", "product origin display", "service origin display"]),
    ("data_type", AttrVal.str "string")]),
  ("place_of_manufacture", [
    ("description", AttrVal.str "Place of manufacture for the product"),
    ("category", AttrVal.str "product_service"),
    ("search_terms", AttrVal.strList ["manufacture", "manufacturing location", "production location", "made in"]),
    ("data_type", AttrVal.str "string")]),
  ("domestic_or_foreign_entity", [
    ("description", AttrVal.str "Whether the entity is domestic or foreign"),
    ("category", AttrVal.str "entity"),
    ("search_terms", AttrVal.strList ["domestic", "foreign", "u.s. owned", "foreign owned", "entity type"]),
    ("data_type", AttrVal.str "string")]),
  ("recovered_materialssustainability", [
    ("description", AttrVal.str "Recovered materials and sustainability information"),
    ("category", AttrVal.str "product_service"),
    ("search_terms", AttrVal.strList ["recovered materials", "sustainability", "green", "environmental", "recycled"]),
    ("data_type", AttrVal.str "string")]),
  ("information_technology_commercial_category", [
    ("description", AttrVal.str "Information technology commercial category"),
    ("category", AttrVal.str "product_service"),
    ("search_terms", AttrVal.strList ["it", "information technology", "software", "hardware", "technology"]),
    ("data_type", AttrVal.str "string")]),
  ("claimant_program_code_claimant_program_code", [
    ("description", AttrVal.str "Claimant program code"),
    ("category", AttrVal.str "product_service"),
    ("search_terms", AttrVal.strList ["claimant program", "program code", "claimant", "program identifier"]),
    ("data_type", AttrVal.str "string")]),
  ("claimant_program_code_claimant_program_code_description", [
    ("description", AttrVal.str "Claimant program code description"),
    ("category", AttrVal.str "product_service"),
    ("search_terms", AttrVal.strList ["claimant description", "program description", "claimant program description"]),
    ("data_type", AttrVal.str "string")]),
  ("sea_transportation", [
    ("description", AttrVal.str "Sea transportation information"),
    ("category", AttrVal.str "product_service"),
    ("search_terms", AttrVal.strList ["sea transportation", "maritime", "shipping", "ocean transport"]),
    ("data_type", AttrVal.str "string")]),
  ("gfp_provided_under_this_action", [
    ("description", AttrVal.str "Government furnished property provided under this action"),
    ("category", AttrVal.str "product_service"),
    ("search_terms", AttrVal.strList ["gfp", "government furnished", "government property", "furnished property"]),
    ("data_type", AttrVal.str "string")]),
  ("use_of_epa_designated_products", [
    ("description", AttrVal.str "Use of EPA designated products"),
    ("category", AttrVal.str "product_service"),
    ("search_terms", AttrVal.strList ["epa", "environmental protection", "designated products", "green products"]),
    ("data_type", AttrVal.str "string")]),
  ("source_selection_process", [
    ("description", AttrVal.str "Source selection process used"),
    ("category", AttrVal.str "competition"),
    ("search_terms", AttrVal.strList ["source selection", "selection process", "evaluation process", "award process"]),
    ("data_type", AttrVal.str "string")]),
  ("solicitation_procedures", [
    ("description", AttrVal.str "Solicitation procedures used"),
    ("category", AttrVal.str "competition"),
    ("search_terms", AttrVal.strList ["solicitation", "procurement procedures", "bidding process", "request process"]),
    ("data_type", AttrVal.str "string")]),
  ("idv_type_of_set_aside_idv_type_of_set_aside", [
    ("description", AttrVal.str "IDV type of set aside"),
    ("category", AttrVal.str "competition"),
    ("search_terms", AttrVal.strList ["idv set aside", "delivery vehicle set aside", "vehicle set aside"]),
    ("data_type", AttrVal.str "string")]),
  ("type_of_set_aside_source_type_of_set_aside_source", [
    ("description", AttrVal.str "Source of the set aside type"),
    ("category", AttrVal.str "competition"),
    ("search_terms", AttrVal.strList ["set aside source", "set aside origin", "set aside authority"]),
    ("data_type", AttrVal.str "string")]),
  ("evaluated_preference", [
    ("description", AttrVal.str "Evaluated preference used"),
    ("category", AttrVal.str "competition"),
    ("search_terms", AttrVal.strList ["evaluated preference", "preference", "evaluation preference", "award preference"]),
    ("data_type", AttrVal.str "string")]),
  ("sbirsttr", [
    ("description", AttrVal.str "SBIR/STTR information"),
    ("category", AttrVal.str "competition"),
    ("search_terms", AttrVal.strList ["sbir", "sttr", "small business innovation", "research"]),
    ("data_type", AttrVal.str "string")]),
  ("fair_opportunitylimited_sources", [
    ("description", AttrVal.str "Fair opportunity or limited sources"),
    ("category", AttrVal.str "competition"),
    ("search_terms", AttrVal.strList ["fair opportunity", "limited sources", "competitive set aside", "restricted competition"]),
    ("data_type", AttrVal.str "string")]),
  ("other_than_full_and_open_competition", [
    ("description", AttrVal.str "Other than full and open competition"),
    ("category", AttrVal.str "competition"),
    ("search_terms", AttrVal.strList ["other than full", "non-competitive", "limited competition", "restricted"]),
    ("data_type", AttrVal.str "string")]),
  ("local_area_set_aside", [
    ("description", AttrVal.str "Local area set aside"),
    ("category", AttrVal.str "competition"),
    ("search_terms", AttrVal.strList ["local area", "geographic set aside", "local preference", "area preference"]),
    ("data_type", AttrVal.str "string")]),
  ("contract_opportunities_notice", [
    ("description", AttrVal.str "Contract opportunities notice"),
    ("category", AttrVal.str "competition"),
    ("search_terms", AttrVal.strList ["opportunities notice", "contract notice", "solicitation notice", "bid notice"]),
    ("data_type", AttrVal.str "string")]),
  ("a76_action", [
    ("description", AttrVal.str "A-76 action"),
    ("category", AttrVal.str "competition"),
    ("search_terms", AttrVal.strList ["a76", "circular a-76", "commercial activities", "outsourcing"]),
    ("data_type", AttrVal.str "string")]),
  ("commercial_products_and_services_acquisition_procedures", [
    ("description", AttrVal.str "Commercial products and services acquisition procedures"),
    ("category", AttrVal.str "competition"),
    ("search_terms", AttrVal.strList ["commercial procedures", "commercial acquisition", "commercial products", "commercial services"]),
    ("data_type", AttrVal.str "string")]),
  ("number_of_offers_received_number_of_offers_source", [
    ("description", AttrVal.str "Source of number of offers received"),
    ("category", AttrVal.str "competition"),
    ("search_terms", AttrVal.strList ["offers source", "bids source", "proposals source", "responses source"]),
    ("data_type", AttrVal.str "string")]),
  ("simplified_procedures_for_certain_commercial_products_and_commercial_services", [
    ("description", AttrVal.str "Simplified procedures for commercial products and services"),
    ("category", AttrVal.str "competition"),
    ("search_terms", AttrVal.strList ["simplified procedures", "commercial simplified", "streamlined procedures"]),
    ("data_type", AttrVal.str "string")]),
  ("subcontract_plan", [
    ("description", AttrVal.str "Subcontract plan"),
    ("category", AttrVal.str "competition"),
    ("search_terms", AttrVal.strList ["subcontract", "subcontracting", "subcontract plan", "subcontracting plan"]),
    ("data_type", AttrVal.str "string")])
]

/-- Embeds `FPDSFieldMapper.get_award_id_fields`: the catalogue fields whose
`category` attribute is `award_id`. -/
def awardIdFields : List String :=
  (fieldMappings.filter
    (fun e => e.2.lookup "category" == some (AttrVal.str "award_id"))).map
    Prod.fst

/-- The loop body of `FPDSFieldMapper.ensure_award_id_in_results`:
`if field not in result: result[field] = "Not Available"` (appending, as
Python dict insertion does for a fresh key). -/
def addNA {β : Type} (na : β) (acc : List (String × β)) (f : String) :
    List (String × β) :=
  if (acc.lookup f).isSome then acc else acc ++ [(f, na)]

/-- Embeds `FPDSFieldMapper.ensure_award_id_in_results` on a single document: for
each award-ID field absent from the document, append it with the value
`"Not Available"`; fields already present are untouched. -/
def ensureAwardIdDoc (d : Doc) : Doc :=
  awardIdFields.foldl (addNA (JVal.str "Not Available")) d

/-- Embeds `FPDSFieldMapper.ensure_award_id_in_results`. -/
def ensureAwardIdInResults (results : List Doc) : List Doc :=
  results.map ensureAwardIdDoc


/-! ### Search-field lists and query enhancement
(`services/fpds_query_helper.py` and `services/utils.py`) -/

/-- Embeds `FPDSQueryHelper._get_set_aside_search_fields` (the list used by the live
query pipeline, `services/fpds_query_helper.py` lines 223-235). -/
def helperSetAsideSearchFields : List String :=
  ["type_of_set_aside",
   "idv_type_of_set_aside_idv_type_of_set_aside",
   "contracting_officers_business_size_selection",
   "type_of_set_aside_source_type_of_set_aside_source",
   "sbirsttr",
   "fair_opportunitylimited_sources",
   "local_area_set_aside"]

/-- Embeds `PromptHelper._get_set_aside_search_fields` (`services/utils.py` lines
154-164; `PromptHelper` has no caller in the repository). -/
def promptHelperSetAsideSearchFields : List String :=
  ["type_of_set_aside",
   "idv_type_of_set_aside_idv_type_of_set_aside",
   "type_of_set_aside_source_type_of_set_aside_source",
   "local_area_set_aside"]

/-- Embeds `any(term in query_lower for term in terms)`. -/
def anyTermIn (terms : List String) (queryLower : String) : Bool :=
  terms.any (fun t => strHasSub queryLower t)

/-- The six intent alias lists hard-coded in
`FPDSQueryHelper._enhance_query_understanding` (lines 141-161), verbatim,
including the duplicated `"8a"` in the set-aside list. -/
def serviceTerms : List String :=
  ["opportunity", "service", "cybersecurity", "it", "construction",
   "maintenance", "consulting", "training", "research", "software",
   "hardware", "supplies", "security", "medical"]

def setAsideTerms : List String :=
  ["8a", "8a", "small business", "women owned", "veteran owned",
   "minority owned", "disadvantaged", "hubzone", "set aside", "set-aside"]

def agencyTerms : List String :=
  ["nasa", "dod", "navy", "army", "air force", "defense",
   "homeland security", "energy", "health", "treasury", "interior",
   "agriculture", "commerce", "labor", "transportation", "education",
   "veterans", "justice", "state", "epa", "gsa", "ssa", "opm", "nrc", "fcc"]

def vendorTerms : List String :=
  ["booz allen", "boeing", "lockheed", "raytheon", "northrop",
   "general dynamics", "company", "vendor", "contractor"]

def dateTerms : List String :=
  ["expiring", "expired", "active", "recent", "old", "this year",
   "last year", "next year", "2024", "2025", "2026"]

def amountTerms : List String :=
  ["large", "small", "million", "billion", "thousand", "high value",
   "low value", "$", "amount", "value"]

def serviceCtx : String :=
  "SERVICE/OPPORTUNITY SEARCH: This query is looking for specific services or opportunities."

def setAsideCtx : String :=
  "SET-ASIDE SEARCH: This query involves business set-aside requirements."

def agencyCtx : String :=
  "AGENCY SEARCH: This query involves specific federal agencies."

def vendorCtx : String :=
  "VENDOR SEARCH: This query involves specific vendors or contractors."

def dateCtx : String :=
  "DATE SEARCH: This query involves time-based filtering."

def amountCtx : String :=
  "AMOUNT SEARCH: This query involves financial value filtering."

/-- The `enhanced_parts` list built by
`FPDSQueryHelper._enhance_query_understanding`: one context note per intent,
appended exactly when some alias of that intent occurs as a substring of the
lowercased query. -/
def enhancedParts (query : String) : List String :=
  let ql := strLower query
  (if anyTermIn serviceTerms ql then [serviceCtx] else []) ++
  (if anyTermIn setAsideTerms ql then [setAsideCtx] else []) ++
  (if anyTermIn agencyTerms ql then [agencyCtx] else []) ++
  (if anyTermIn vendorTerms ql then [vendorCtx] else []) ++
  (if anyTermIn dateTerms ql then [dateCtx] else []) ++
  (if anyTermIn amountTerms ql then [amountCtx] else [])

/-- Embeds `FPDSQueryHelper._enhance_query_understanding`. -/
def enhanceQueryUnderstanding (query : String) : String :=
  match enhancedParts query with
  | [] => query
  | parts => query ++ "\n\nCONTEXT: " ++ String.intercalate "; " parts


/-! ### `FPDSQueryHelper._clean_mongodb_response`

The Python method applies eight `re.sub` substitutions in order.  Every
pattern involved is deterministic (no backtracking can change the match), so
each is embedded as a `Matcher` mirroring the regex exactly, and the method is
the composition of the eight `substM` passes. -/

/-- Embeds the first substitution of the cleanup: an opening markdown fence
(three backticks), optionally followed by `json`, plus trailing whitespace,
deleted. -/
def mdOpen : Matcher := fun s =>
  match dropLit ['\x60', '\x60', '\x60'] s with
  | none => none
  | some s1 =>
    let s2 := match dropLit ['j', 's', 'o', 'n'] s1 with
      | some t => t
      | none => s1
    let r := takeRun pySpace s2
    some ([], r.2)

/-- Embeds the second substitution: whitespace plus a closing markdown fence
(three backticks), deleted. -/
def mdClose : Matcher := fun s =>
  let r := takeRun pySpace s
  match dropLit ['\x60', '\x60', '\x60'] r.2 with
  | none => none
  | some rest => some ([], rest)

/-- Embeds the quote-character class of the Python regexes (single or double
quote). -/
def isQuoteCh (c : Char) : Bool := c == '\x27' || c == '"'

/-- Embeds the shared shape of the quoted `ISODate` and `ObjectId` patterns: a
literal call head, a quoted nonempty argument, a closing parenthesis;
rewritten to the double-quoted argument. -/
def quotedCall (lit : List Char) : Matcher := fun s =>
  match dropLit lit s with
  | none => none
  | some s1 =>
    match s1 with
    | [] => none
    | q :: s2 =>
      if isQuoteCh q then
        let r := takeRun (fun c => !(isQuoteCh c)) s2
        match r.1, r.2 with
        | [], _ => none
        | v, q2 :: s3 =>
          if isQuoteCh q2 then
            match s3 with
            | ')' :: rest => some ('"' :: (v ++ ['"']), rest)
            | _ => none
          else none
        | _, [] => none
      else none

def isoQuoted : Matcher := quotedCall "ISODate(".toList

def objIdQuoted : Matcher := quotedCall "ObjectId(".toList

/-- Embeds the unquoted `ISODate` substitution: the argument, up to the next
closing parenthesis, is wrapped in double quotes. -/
def isoBare : Matcher := fun s =>
  match dropLit "ISODate(".toList s with
  | none => none
  | some s1 =>
    let r := takeRun (fun c => c != ')') s1
    match r.1, r.2 with
    | [], _ => none
    | v, ')' :: rest => some ('"' :: (v ++ ['"']), rest)
    | _, _ => none

/-- Embeds the bare-operator substitution: a dollar sign, letters, and a colon
become a double-quoted key followed by a colon and one space. -/
def dollarOp : Matcher := fun s =>
  match s with
  | '$' :: s1 =>
    let r := takeRun pyAlpha s1
    match r.1, r.2 with
    | [], _ => none
    | ls, ':' :: s2 =>
      let w := takeRun pySpace s2
      some ('"' :: '$' :: (ls ++ ['"', ':', ' ']), w.2)
    | _, _ => none
  | _ => none

/-- Embeds the doubled-quote fix: a nonempty quote-free segment wrapped in
doubled double quotes is rewrapped in single double quotes. -/
def doubledQuotes : Matcher := fun s =>
  match s with
  | '"' :: '"' :: s1 =>
    let r := takeRun (fun c => c != '"') s1
    match r.1, r.2 with
    | [], _ => none
    | v, '"' :: '"' :: rest => some ('"' :: (v ++ ['"']), rest)
    | _, _ => none
  | _ => none

/-- The literal `"$regex":` that the uppercasing pattern starts with — note
the pattern allows no whitespace between the closing quote of the key and the
colon. -/
def regexKeyLit : List Char := "\"$regex\":".toList

/-- The final substitution of `_clean_mongodb_response`: rewrite
`"$regex": "pat"` to `"$regex": "PAT"` (pattern uppercased, whitespace after
the colon normalised to one space). -/
def regexUpper : Matcher := fun s =>
  match dropLit regexKeyLit s with
  | none => none
  | some s1 =>
    let w := takeRun pySpace s1
    match w.2 with
    | '"' :: s2 =>
      let r := takeRun (fun c => c != '"') s2
      match r.1, r.2 with
      | [], _ => none
      | v, '"' :: rest =>
        some ("\"$regex\": \"".toList ++ (v.map Char.toUpper ++ ['"']), rest)
      | _, _ => none
    | _ => none

/-- Embeds `FPDSQueryHelper._clean_mongodb_response`: the eight `re.sub` passes in
source order. -/
def cleanMongodbResponse (s : List Char) : List Char :=
  substM regexUpper
    (substM doubledQuotes
      (substM dollarOp
        (substM objIdQuoted
          (substM isoBare
            (substM isoQuoted
              (substM mdClose
                (substM mdOpen s)))))))

/-- Detector for a JSON-lexical `"$regex"` key/value occurrence (whitespace
permitted on either side of the colon, as JSON allows) whose pattern contains
a lowercase letter. -/
def lowerRegexAt (s : List Char) : Bool :=
  match dropLit "\"$regex\"".toList s with
  | none => false
  | some s1 =>
    let w1 := takeRun pySpace s1
    match w1.2 with
    | ':' :: s2 =>
      let w2 := takeRun pySpace s2
      match w2.2 with
      | '"' :: s3 =>
        let r := takeRun (fun c => c != '"') s3
        match r.2 with
        | '"' :: _ => r.1.any Char.isLower
        | _ => false
      | _ => false
    | _ => false

/-- Does the string contain, at any position, a `"$regex"` value with a
lowercase letter? -/
def hasLowerRegexOcc : List Char → Bool
  | [] => false
  | c :: t => lowerRegexAt (c :: t) || hasLowerRegexOcc t


/-! ### Query pipeline and HTTP layer

The LLM chat call, `json.loads`, and the MongoDB cursor are external effects;
each is passed in as the `Except`-valued outcome observed at the exact point
where the Python code wraps it in `try`/`except`. -/

/-- Embeds `FPDSQueryHelper._parse_llm_filter_response`, with the JSON-decoding of
the cleaned reply abstracted as its outcome: on `json.JSONDecodeError` the
method returns `{"filter": {}, "explanation": "Failed to parse response"}`;
on success it returns the decoded object if it has a `"filter"` key and
`{"filter": {}, "explanation": "Failed to parse LLM response"}` otherwise. -/
def parseLlmFilterResponse (jsonOutcome : Except Unit JObj) : JObj :=
  match jsonOutcome with
  | .error _ =>
    [("filter", JVal.obj []), ("explanation", JVal.str "Failed to parse response")]
  | .ok result =>
    if (result.lookup "filter").isSome then result
    else
      [("filter", JVal.obj []),
       ("explanation", JVal.str "Failed to parse LLM response")]

/-- Embeds `FPDSQueryHelper._parse_query_to_filter`: the `try` block wraps the chat
call (outer outcome, a reply string on success) and the subsequent JSON
decoding (inner outcome); if the chat call raises, the handler logs and the
method falls through to `return {}` — the empty dictionary. -/
def parseQueryToFilter
    (llmOutcome : Except Unit (Except Unit JObj)) : JObj :=
  match llmOutcome with
  | .error _ => []
  | .ok jsonOutcome => parseLlmFilterResponse jsonOutcome

/-- Embeds `FPDSQueryHelper._execute_mongo_query`: the cursor produced by
`collection.find(...).sort(...).limit(...)` is abstracted as `dbOutcome`; any
exception inside the `try` yields `[]`, and on success the materialised
documents are passed through `ensure_award_id_in_results`. -/
def executeMongoQuery (filterConfig : JObj)
    (dbOutcome : Except Unit (List Doc)) : List Doc :=
  match filterConfig, dbOutcome with
  | _, .error _ => []
  | _, .ok docs => ensureAwardIdInResults docs

/-- Embeds `FPDSQueryHelper.query`: on success of the three pipeline steps it builds
the answer dictionary (with a `mongo_filter` key); if any step raises, the
`except` handler builds the error dictionary — which has no `mongo_filter`
key. -/
def helperQuery (q : String)
    (outcome : Except String (JVal × List Doc × JVal)) : JObj :=
  match outcome with
  | .ok (mongoFilter, results, formatted) =>
    [("query", JVal.str q),
     ("mongo_filter", mongoFilter),
     ("results_count", JVal.num results.length),
     ("formatted_response", formatted),
     ("raw_results", JVal.arr ((results.take 10).map JVal.obj))]
  | .error e =>
    [("error", JVal.str e),
     ("query", JVal.str q),
     ("results_count", JVal.num 0),
     ("formatted_response", JVal.str ("Error processing query: " ++ e))]

/-- Embeds `BaseResponseSchema` from `schemas/base.py`. -/
structure BaseResponseSchema where
  status_code : Nat
  description : String
  data : JObj

/-- The body of the `try` in the `POST /query` route
(`routes/questions.py` lines 27-32): it reads `answer["mongo_filter"]` (the
debug `print`) and `answer["formatted_response"]`, so a missing key raises
`KeyError`, which the `except` turns into HTTP 500 with the fixed detail
`"Failed to process query"`. -/
def queryRouteBody (answer : JObj) : Except (Nat × String) BaseResponseSchema :=
  match answer.lookup "mongo_filter" with
  | none => .error (500, "Failed to process query")
  | some _ =>
    match answer.lookup "formatted_response" with
    | none => .error (500, "Failed to process query")
    | some fr =>
      .ok ⟨200, "return questions answer", [("results", fr)]⟩

/-- The `POST /ask_fpds/api/v1/query` endpoint: `helperOutcome` is `.error`
when `query_helper.query` itself raises (caught by the same `except`), and
`.ok answer` when it returns a dictionary. -/
def queryEndpoint (helperOutcome : Except Unit JObj) :
    Except (Nat × String) BaseResponseSchema :=
  match helperOutcome with
  | .error _ => .error (500, "Failed to process query")
  | .ok answer => queryRouteBody answer

/-- The `GET /ask_fpds/api/v1/health` handler: the Python coroutine takes no
parameters and returns a literal; the embedding takes the (ignored) incoming
request to express independence from it. -/
def healthCheck (_request : List (String × String)) : JObj :=
  [("status", JVal.str "healthy"), ("message", JVal.str "FPDS API is running")]

/-! ### Filter sanitizer (modelled from the spec)

Modelled from the spec: the specification describes "a post-processing
sanitizer that strips disallowed filter fields from an externally generated
query structure" operating on arbitrarily nested `$and`/`$or`/`$nor`
combinations, but no such function exists under `src/` — the closest artefact
is the prompt in `services/utils.py` (lines 266-274) which merely instructs
the LLM not to use the disallowed field.  The filter tree and the sanitizer
below follow the wording of the spec: a filter is a list of clauses, each clause
either a field condition or a logical combinator over sub-clauses, and the
sanitizer drops every condition whose field is not allowed, recursing through
the logical operators. -/

inductive FilterNode where
  | cond (field : String) (value : String) : FilterNode
  | andN (subs : List FilterNode) : FilterNode
  | orN (subs : List FilterNode) : FilterNode
  | norN (subs : List FilterNode) : FilterNode

/-- Modelled from the spec: strip every condition on a field outside
`allowed` from the logical tree of the filter. -/
def sanitizeFilter (allowed : List String) : List FilterNode → List FilterNode
  | [] => []
  | .cond f v :: rest =>
    if allowed.contains f then .cond f v :: sanitizeFilter allowed rest
    else sanitizeFilter allowed rest
  | .andN subs :: rest =>
    .andN (sanitizeFilter allowed subs) :: sanitizeFilter allowed rest
  | .orN subs :: rest =>
    .orN (sanitizeFilter allowed subs) :: sanitizeFilter allowed rest
  | .norN subs :: rest =>
    .norN (sanitizeFilter allowed subs) :: sanitizeFilter allowed rest

/-- Does a condition on field `f` occur anywhere in the logical tree of the
filter? -/
def occursField (f : String) : List FilterNode → Bool
  | [] => false
  | .cond g _ :: rest => f == g || occursField f rest
  | .andN subs :: rest => occursField f subs || occursField f rest
  | .orN subs :: rest => occursField f subs || occursField f rest
  | .norN subs :: rest => occursField f subs || occursField f rest


/-! ### Claims -/

/-- C1.  For every filter structure fed into it, including all nested
`$and`/`$or`/`$nor` combinations, the field-mapping sanitizer strips every
disallowed filter field: after sanitization no disallowed field name remains
anywhere in the logical tree of the filter.  (Sanitizer modelled from the spec; no
implementation exists under `src/`.) -/
theorem claim_C1 (allowed : List String) (phi : List FilterNode) (f : String)
    (hf : allowed.contains f = false) :
    occursField f (sanitizeFilter allowed phi) = false := by
  have hf' : f ∉ allowed := by simpa using hf
  induction phi using sanitizeFilter.induct allowed with
  | case1 => simp [sanitizeFilter, occursField]
  | case2 g v rest hg ih =>
    have hg' : g ∈ allowed := by simpa using hg
    have hfg : (f == g) = false := by
      cases h : (f == g)
      · rfl
      · exact absurd (beq_iff_eq.mp h ▸ hg') hf'
    simp [sanitizeFilter, occursField, hg', hfg, ih]
  | case3 g v rest hg ih =>
    have hg' : g ∉ allowed := by simpa using hg
    simp [sanitizeFilter, hg', ih]
  | case4 subs rest ihs ihr => simp [sanitizeFilter, occursField, ihs, ihr]
  | case5 subs rest ihs ihr => simp [sanitizeFilter, occursField, ihs, ihr]
  | case6 subs rest ihs ihr => simp [sanitizeFilter, occursField, ihs, ihr]

/-- A nested `$and`/`$or`/`$nor` filter mentioning the disallowed field at
several depths, used to witness C1. -/
def demoFilterC1 : List FilterNode :=
  [FilterNode.andN
    [FilterNode.cond "type_of_set_aside" "8A",
     FilterNode.orN
       [FilterNode.cond "contracting_officers_business_size_selection" "8A",
        FilterNode.norN
          [FilterNode.cond "contracting_officers_business_size_selection" "S",
           FilterNode.cond "local_area_set_aside" "8A"]]],
   FilterNode.cond "contracting_officers_business_size_selection" "8A"]

/-- C1, witnessed on a concrete nested filter with the allowed list of
`PromptHelper._get_set_aside_search_fields`. -/
theorem claim_C1_witness :
    promptHelperSetAsideSearchFields.contains
      "contracting_officers_business_size_selection" = false ∧
    occursField "contracting_officers_business_size_selection"
      (sanitizeFilter promptHelperSetAsideSearchFields demoFilterC1) = false :=
  ⟨by decide,
   claim_C1 promptHelperSetAsideSearchFields demoFilterC1
     "contracting_officers_business_size_selection" (by decide)⟩

/-- C2 (counterexample).  The claim says the set of set-aside search fields
used for 8(a) filtering has exactly four members and excludes
`contracting_officers_business_size_selection`; but the list used by the live
pipeline (`FPDSQueryHelper._get_set_aside_search_fields`, interpolated into
the parsing prompt by `_create_query_parsing_prompt`) has seven members and
contains it. -/
theorem claim_C2_counterexample :
    helperSetAsideSearchFields.length = 7 ∧
    helperSetAsideSearchFields.contains
      "contracting_officers_business_size_selection" = true ∧
    ¬(helperSetAsideSearchFields.length = 4 ∧
      helperSetAsideSearchFields.contains
        "contracting_officers_business_size_selection" = false) := by
  decide

/-- C2 (amended).  The four-field allowed list exists only in the uncalled
`PromptHelper._get_set_aside_search_fields` (`services/utils.py`), which
indeed has exactly four members and excludes
`contracting_officers_business_size_selection`; the list the live query
pipeline interpolates into its prompt has seven members including that
field. -/
theorem claim_C2 :
    promptHelperSetAsideSearchFields.length = 4 ∧
    promptHelperSetAsideSearchFields.contains
      "contracting_officers_business_size_selection" = false ∧
    helperSetAsideSearchFields.length = 7 ∧
    helperSetAsideSearchFields.contains
      "contracting_officers_business_size_selection" = true := by
  decide

/-- C3.  Each downstream failure is caught and degrades as specified: an LLM
call failure during query parsing yields the empty filter dictionary; a JSON
parse failure of the LLM reply yields a result whose `filter` is the empty
dictionary; a database error during query execution yields the empty result
list. -/
theorem claim_C3 :
    (∀ e, parseQueryToFilter (Except.error e) = []) ∧
    (∀ e, (parseLlmFilterResponse (Except.error e)).lookup "filter" =
      some (JVal.obj [])) ∧
    (∀ cfg e, executeMongoQuery cfg (Except.error e) = []) :=
  ⟨fun _ => rfl, fun _ => rfl, fun _ _ => rfl⟩

/-- C4.  Whenever the downstream query helper raises, or returns its internal
error dictionary (which lacks the `mongo_filter` key the route reads, so the
resulting `KeyError` is caught by the same handler), the `POST
/ask_fpds/api/v1/query` endpoint responds with HTTP 500 and the fixed generic
detail. -/
theorem claim_C4 :
    (∀ e, queryEndpoint (Except.error e) =
      Except.error (500, "Failed to process query")) ∧
    (∀ q msg, queryEndpoint (Except.ok (helperQuery q (Except.error msg))) =
      Except.error (500, "Failed to process query")) :=
  ⟨fun _ => rfl, fun _ _ => rfl⟩

/-- C5.  The `GET /ask_fpds/api/v1/health` endpoint returns the same fixed
liveness payload — healthy status and fixed message — for every invocation,
independent of the incoming request. -/
theorem claim_C5 :
    ∀ r₁ r₂ : List (String × String),
      healthCheck r₁ = healthCheck r₂ ∧
      (healthCheck r₁).lookup "status" = some (JVal.str "healthy") ∧
      (healthCheck r₁).lookup "message" =
        some (JVal.str "FPDS API is running") :=
  fun _ _ => ⟨rfl, rfl, rfl⟩

/-- C7 (counterexample).  Every catalogue entry does carry exactly the four
attributes, but the catalogue holds 118 entries — not approximately 150
(not even within a generous ±10% band around 150). -/
theorem claim_C7_counterexample :
    fieldMappings.length = 118 ∧
    ¬(135 ≤ fieldMappings.length ∧ fieldMappings.length ≤ 165) := by
  decide

/-- C7 (amended).  Every entry of the static field catalogue maps a flat
field name to a record with exactly the attributes `description`, `category`,
`search_terms`, `data_type` (in that order), and the catalogue holds exactly
118 such entries. -/
theorem claim_C7 :
    fieldMappings.length = 118 ∧
    (fieldMappings.all (fun e =>
      (e.2.map Prod.fst) ==
        ["description", "category", "search_terms", "data_type"])) = true := by
  constructor
  · decide
  · rfl

/-- C8.  On success, the `POST /ask_fpds/api/v1/query` endpoint returns a
`BaseResponseSchema` body with `status_code` 200, the fixed description, and
`data.results` equal to the formatted response produced by the query
helper. -/
theorem claim_C8 :
    ∀ (q : String) (mf : JVal) (res : List Doc) (fmt : JVal),
      queryEndpoint (Except.ok (helperQuery q (Except.ok (mf, res, fmt)))) =
        Except.ok ⟨200, "return questions answer", [("results", fmt)]⟩ :=
  fun _ _ _ _ => rfl


/-- C6.  For every question string, each of the six query-intent decisions of
`_enhance_query_understanding` is pure substring membership: the matching
context note is in the appended parts exactly when some alias of that intent
is a substring of the lowercased question. -/
theorem claim_C6 (q : String) :
    (enhancedParts q).contains serviceCtx = anyTermIn serviceTerms (strLower q) ∧
    (enhancedParts q).contains setAsideCtx = anyTermIn setAsideTerms (strLower q) ∧
    (enhancedParts q).contains agencyCtx = anyTermIn agencyTerms (strLower q) ∧
    (enhancedParts q).contains vendorCtx = anyTermIn vendorTerms (strLower q) ∧
    (enhancedParts q).contains dateCtx = anyTermIn dateTerms (strLower q) ∧
    (enhancedParts q).contains amountCtx = anyTermIn amountTerms (strLower q) := by
  unfold enhancedParts
  cases h1 : anyTermIn serviceTerms (strLower q) <;>
  cases h2 : anyTermIn setAsideTerms (strLower q) <;>
  cases h3 : anyTermIn agencyTerms (strLower q) <;>
  cases h4 : anyTermIn vendorTerms (strLower q) <;>
  cases h5 : anyTermIn dateTerms (strLower q) <;>
  cases h6 : anyTermIn amountTerms (strLower q) <;>
  simp_all [serviceCtx, setAsideCtx, agencyCtx, vendorCtx, dateCtx, amountCtx]


/-! ### Association-list lemmas for C10 -/

theorem lookup_append {β : Type} (l₁ l₂ : List (String × β)) (k : String) :
    (l₁ ++ l₂).lookup k = (l₁.lookup k).or (l₂.lookup k) := by
  induction l₁ with
  | nil => simp [List.lookup]
  | cons a t ih =>
    cases h : (k == a.1) <;> simp [List.lookup, h, ih]

theorem addNA_keeps {β : Type} (na : β) (d : List (String × β)) (g k : String)
    (v : β) (h : d.lookup k = some v) : (addNA na d g).lookup k = some v := by
  unfold addNA
  split
  · exact h
  · rw [lookup_append, h]; rfl

theorem fold_keeps {β : Type} (na : β) (fs : List String)
    (d : List (String × β)) (k : String) (v : β) (h : d.lookup k = some v) :
    (fs.foldl (addNA na) d).lookup k = some v := by
  induction fs generalizing d with
  | nil => exact h
  | cons g rest ih => exact ih (addNA na d g) (addNA_keeps na d g k v h)

theorem fold_pres_isSome {β : Type} (na : β) (fs : List String)
    (d : List (String × β)) (k : String)
    (h : (d.lookup k).isSome = true) :
    ((fs.foldl (addNA na) d).lookup k).isSome = true := by
  obtain ⟨v, hv⟩ := Option.isSome_iff_exists.mp h
  rw [fold_keeps na fs d k v hv]; rfl

theorem addNA_self_isSome {β : Type} (na : β) (d : List (String × β))
    (g : String) : ((addNA na d g).lookup g).isSome = true := by
  unfold addNA
  split
  · assumption
  · rename_i h
    have hn : d.lookup g = none := by
      cases hc : d.lookup g
      · rfl
      · exact absurd (by rw [hc]; rfl) h
    rw [lookup_append, hn]
    simp [List.lookup]

theorem fold_has {β : Type} (na : β) (fs : List String)
    (d : List (String × β)) (k : String) (hk : k ∈ fs) :
    ((fs.foldl (addNA na) d).lookup k).isSome = true := by
  induction fs generalizing d with
  | nil => cases hk
  | cons g rest ih =>
    rcases List.mem_cons.mp hk with h | h
    · subst h
      exact fold_pres_isSome na rest (addNA na d k) k (addNA_self_isSome na d k)
    · exact ih (addNA na d g) h

/-- C10.  Every record returned by a successful query execution is one of the
stored documents passed through `ensure_award_id_in_results`: every catalogue
field of category `award_id` is present in it (absent ones having been added
as `"Not Available"`), and every key already present in the stored document
keeps its original value. -/
theorem claim_C10 (cfg : JObj) (docs : List Doc) (d : Doc)
    (hd : d ∈ executeMongoQuery cfg (Except.ok docs)) :
    ∃ d₀ ∈ docs, d = ensureAwardIdDoc d₀ ∧
      (∀ f ∈ awardIdFields, (d.lookup f).isSome = true) ∧
      (∀ (f : String) (v : JVal), d₀.lookup f = some v →
        d.lookup f = some v) := by
  obtain ⟨d₀, hmem, hmap⟩ := List.mem_map.mp hd
  refine ⟨d₀, hmem, hmap.symm, ?_, ?_⟩
  · intro f hf
    rw [← hmap]
    exact fold_has (JVal.str "Not Available") awardIdFields d₀ f hf
  · intro f v hv
    rw [← hmap]
    exact fold_keeps (JVal.str "Not Available") awardIdFields d₀ f v hv

/-- C10, witnessed on a one-document result set that already carries one of
the five award-ID fields. -/
theorem claim_C10_witness :
    ∃ d₀ ∈ [[("award_id_agency_id", JVal.str "9700")]],
      ensureAwardIdDoc [("award_id_agency_id", JVal.str "9700")] =
        ensureAwardIdDoc d₀ ∧
      (∀ f ∈ awardIdFields,
        ((ensureAwardIdDoc
          [("award_id_agency_id", JVal.str "9700")]).lookup f).isSome = true) ∧
      (∀ (f : String) (v : JVal), d₀.lookup f = some v →
        (ensureAwardIdDoc
          [("award_id_agency_id", JVal.str "9700")]).lookup f = some v) :=
  claim_C10 [] [[("award_id_agency_id", JVal.str "9700")]]
    (ensureAwardIdDoc [("award_id_agency_id", JVal.str "9700")])
    (by simp [executeMongoQuery, ensureAwardIdInResults])


/-! ### Scanner lemmas for C9 -/

theorem dropLit_self_append (lit t : List Char) :
    dropLit lit (lit ++ t) = some t := by
  induction lit with
  | nil => rfl
  | cons a as ih => simp [dropLit, ih]

theorem dropLit_some (lit : List Char) :
    ∀ s t, dropLit lit s = some t → s = lit ++ t := by
  induction lit with
  | nil => intro s t h; cases h; rfl
  | cons a as ih =>
    intro s t h
    cases s with
    | nil => cases h
    | cons b bs =>
      by_cases hab : (a == b) = true
      · have := ih bs t (by simpa [dropLit, hab] using h)
        simp [this, beq_iff_eq.mp hab]
      · simp [dropLit, hab] at h

theorem takeRun_cons (p : Char → Bool) (c : Char) (cs : List Char) :
    takeRun p (c :: cs) =
      if p c then (c :: (takeRun p cs).1, (takeRun p cs).2)
      else ([], c :: cs) := rfl

theorem takeRun_head_false {p : Char → Bool} {c : Char} (u : List Char)
    (h : p c = false) : takeRun p (c :: u) = ([], c :: u) := by
  simp [takeRun, h]

theorem takeRun_all_append {p : Char → Bool} (w : List Char)
    (hw : w.all p = true) (t : List Char) :
    takeRun p (w ++ t) = (w ++ (takeRun p t).1, (takeRun p t).2) := by
  induction w with
  | nil => simp
  | cons c cs ih =>
    simp only [List.all_cons, Bool.and_eq_true] at hw
    obtain ⟨hc, hcs⟩ := hw
    rw [List.cons_append, takeRun_cons, if_pos hc, ih hcs]
    simp

theorem takeRun_split (p : Char → Bool) :
    ∀ s a b, takeRun p s = (a, b) → s = a ++ b := by
  intro s
  induction s with
  | nil => intro a b h; cases h; rfl
  | cons c cs ih =>
    intro a b h
    rw [takeRun_cons] at h
    by_cases hc : p c = true
    · rw [if_pos hc] at h
      have hsplit := ih (takeRun p cs).1 (takeRun p cs).2 rfl
      cases h
      show c :: cs = c :: ((takeRun p cs).1 ++ (takeRun p cs).2)
      rw [← hsplit]
    · rw [if_neg hc] at h
      cases h
      rfl

/-- The uppercasing matcher succeeds exactly on the shape its regex matches:
the literal `"$regex":`, optional whitespace, and a nonempty double-quoted
pattern without quote characters. -/
theorem regexUpper_spec (w v rest : List Char) (hw : w.all pySpace = true)
    (hv : v ≠ []) (hq : v.all (fun c => c != '"') = true) :
    regexUpper (regexKeyLit ++ (w ++ '"' :: (v ++ '"' :: rest))) =
      some ("\"$regex\": \"".toList ++ (v.map Char.toUpper ++ ['"']), rest) := by
  simp only [regexUpper, dropLit_self_append]
  rw [takeRun_all_append w hw, takeRun_head_false _ (by decide)]
  simp only
  rw [takeRun_all_append v hq, takeRun_head_false _ (by decide)]
  simp only [List.append_nil]

theorem regexUpper_consumes (s rep rest : List Char)
    (h : regexUpper s = some (rep, rest)) : rest.length < s.length := by
  simp only [regexUpper] at h
  split at h
  · cases h
  · rename_i s1 hdrop
    split at h
    · rename_i s2 hw2
      split at h
      · cases h
      · rename_i v rest2 hA hB
        cases h
        have e1 := congrArg List.length (dropLit_some _ _ _ hdrop)
        have e2 := congrArg List.length
          (hw2 ▸ takeRun_split pySpace s1 _ _ rfl)
        have e3 := congrArg List.length
          (hA ▸ takeRun_split (fun c => c != '"') s2 _ _ rfl)
        have hk : regexKeyLit.length = 9 := by decide
        simp only [List.length_append, List.length_cons] at e1 e2 e3
        omega
      · cases h
    · cases h

/-- Lemma: `substAux` does not depend on the fuel once the fuel covers the input
length, for any matcher that consumes at least one character. -/
theorem substAux_fuel (m : Matcher)
    (hm : ∀ s rep rest, m s = some (rep, rest) → rest.length < s.length) :
    ∀ (f : Nat) (s : List Char), s.length ≤ f →
      substAux m f s = substAux m s.length s := by
  intro f
  induction f using Nat.strong_induction_on with
  | _ f ih =>
    intro s hs
    cases f with
    | zero =>
      have hnil : s = [] := List.eq_nil_of_length_eq_zero (Nat.le_zero.mp hs)
      subst hnil; rfl
    | succ g =>
      cases s with
      | nil => rfl
      | cons c cs =>
        have hcs : cs.length ≤ g := by
          simp only [List.length_cons] at hs; omega
        have lhsEq : substAux m (g + 1) (c :: cs) =
            match m (c :: cs) with
            | some (rep, rest) => rep ++ substAux m g rest
            | none => c :: substAux m g cs := rfl
        have rhsEq : substAux m (c :: cs).length (c :: cs) =
            match m (c :: cs) with
            | some (rep, rest) => rep ++ substAux m cs.length rest
            | none => c :: substAux m cs.length cs := rfl
        rw [lhsEq, rhsEq]
        cases hm2 : m (c :: cs) with
        | none =>
          have ih1 := ih g (Nat.lt_succ_self g) cs hcs
          have ih2 := ih cs.length (Nat.lt_succ_of_le hcs) cs (Nat.le_refl _)
          simp only [ih1, ih2]
        | some pr =>
          obtain ⟨rep, rest⟩ := pr
          have hr : rest.length < cs.length + 1 := by
            simpa using hm _ _ _ hm2
          have hrg : rest.length ≤ g := by omega
          have hrc : rest.length ≤ cs.length := by omega
          have ih1 := ih g (Nat.lt_succ_self g) rest hrg
          have ih2 := ih cs.length (Nat.lt_succ_of_le hcs) rest hrc
          simp only [ih1, ih2]

/-- A match at the head of the input rewrites to the replacement followed by
the substitution of the remainder. -/
theorem substM_head (m : Matcher)
    (hm : ∀ s rep rest, m s = some (rep, rest) → rest.length < s.length)
    (s rep rest : List Char) (h : m s = some (rep, rest)) :
    substM m s = rep ++ substM m rest := by
  have hlt := hm _ _ _ h
  cases s with
  | nil => exact absurd hlt (by simp)
  | cons c cs =>
    have e0 : substM m (c :: cs) =
        match m (c :: cs) with
        | some (rep, rest) => rep ++ substAux m cs.length rest
        | none => c :: substAux m cs.length cs := rfl
    rw [e0, h]
    have hrc : rest.length ≤ cs.length := by
      simp only [List.length_cons] at hlt; omega
    show rep ++ substAux m cs.length rest = rep ++ substM m rest
    rw [substAux_fuel m hm cs.length rest hrc]
    rfl

/-- The LLM reply used as the C9 counterexample: a well-formed filter whose
`$regex` key is separated from its colon by a space — legal JSON, but not
matched by the uppercasing pattern. -/
def exC9 : List Char :=
  "\x7b\"filter\": \x7b\"f\": \x7b\"$regex\" : \"navy\"\x7d\x7d\x7d".toList

/-- C9 (counterexample).  The cleanup does not rewrite every `"$regex"` value
to uppercase: on a reply writing `"$regex" :` with whitespace before the
colon, the whole eight-pass cleanup is the identity, and the lowercase
pattern `navy` survives into the text handed to the JSON decoder, hence into
the parsed filter forwarded to the database. -/
theorem claim_C9_counterexample :
    cleanMongodbResponse exC9 = exC9 ∧
    hasLowerRegexOcc (cleanMongodbResponse exC9) = true := by
  constructor
  · rfl
  · rfl

/-- C9 (amended).  The final substitution of `_clean_mongodb_response`
uppercases exactly the `$regex` values written as the literal `"$regex":`
(no whitespace before the colon) followed by optional whitespace and a
nonempty quote-free double-quoted pattern, normalising the whitespace and
continuing after the value; occurrences not of that shape (such as the
`"$regex" :` of the counterexample) are left unchanged and may stay lowercase. -/
theorem claim_C9 (w v rest : List Char) (hw : w.all pySpace = true)
    (hv : v ≠ []) (hq : v.all (fun c => c != '"') = true) :
    substM regexUpper (regexKeyLit ++ (w ++ '"' :: (v ++ '"' :: rest))) =
      ("\"$regex\": \"".toList ++ (v.map Char.toUpper ++ ['"'])) ++
        substM regexUpper rest :=
  substM_head regexUpper regexUpper_consumes _ _ _
    (regexUpper_spec w v rest hw hv hq)

/-- C9, witnessed at `"$regex": "navy"` (single space, pattern `navy`),
rewritten to the uppercase `NAVY` form. -/
theorem claim_C9_witness :
    substM regexUpper
      (regexKeyLit ++ ([' '] ++ '"' :: ("navy".toList ++ '"' :: []))) =
      ("\"$regex\": \"".toList ++ ("navy".toList.map Char.toUpper ++ ['"'])) ++
        substM regexUpper [] :=
  claim_C9 [' '] "navy".toList [] (by decide) (by decide) (by decide)

end FPDS
